import Mathlib

/-!
Shallow embedding of the SAJ portal scraper core
(`saj_portal_scraper/` and `saj_portal_web_crawler/`), used to settle the
specification claims.  Python floats are modelled as rationals, machinery
such as dicts as association lists, and the monotonic clock as a natural
number parameter.
-/

namespace SajScraper

/-- Calendar date, modelling Python `datetime.date`. -/
structure Date where
  year : Nat
  month : Nat
  day : Nat
deriving DecidableEq, Repr

/-- Round-half-even to an integer, the rounding used by Python `round`. -/
def roundHalfEven (x : Rat) : Int :=
  let f : Int := Int.floor x
  let frac : Rat := x - (f : Rat)
  if frac < 1/2 then f
  else if 1/2 < frac then f + 1
  else if f % 2 = 0 then f else f + 1

/-- Python `round(x, 2)` on the rational model of floats. -/
def pyRound2 (x : Rat) : Rat :=
  ((roundHalfEven (x * 100) : Int) : Rat) / 100

/-- Embedding of `utils.calculate_peak_power` (utils.py lines 162-184).
`today` stands for `datetime.now().date()`; `currentPower = none` models
a `None` argument.  The daily reset (`new_reset_date is None or
new_reset_date != current_date`) is evaluated first, then the raise.
Returns `(new_peak, new_reset_date, state_changed)`. -/
def calculate_peak_power (today : Date) (currentPower : Option Rat)
    (previousPeak : Rat) (lastResetDate : Option Date) :
    Rat × Option Date × Bool :=
  -- Reset peak power if it's a new day
  let doReset := lastResetDate = none ∨ lastResetDate ≠ some today
  let newPeak : Rat := if doReset then 0 else previousPeak
  let newResetDate := if doReset then some today else lastResetDate
  let stateChanged := if doReset then true else false
  -- Update peak power if current power is higher
  match currentPower with
  | some cp =>
    if cp > newPeak then (pyRound2 cp, newResetDate, true)
    else (newPeak, newResetDate, stateChanged)
  | none => (newPeak, newResetDate, stateChanged)

/-- Numeric value of an ASCII digit character. -/
def digitVal (c : Char) : Option Nat :=
  if '0' ≤ c ∧ c ≤ '9' then some (c.toNat - 48) else none

/-- Python `str.split(sep)` for a one-character separator, on char lists:
`"a:b" ↦ ["a", "b"]`, `"" ↦ [""]`, `"::" ↦ ["", "", ""]`. -/
def splitOnChar (sep : Char) : List Char → List (List Char)
  | [] => [[]]
  | c :: rest =>
    let r := splitOnChar sep rest
    if c = sep then [] :: r
    else
      match r with
      | g :: gs => (c :: g) :: gs
      | [] => [[c]]

/-- Python `str.split(sep)` for a one-character separator, on strings. -/
def pySplit (s : String) (sep : Char) : List String :=
  (splitOnChar sep s.data).map fun l => String.mk l

/-- Python `str.replace(a, b)` for one-character arguments. -/
def replaceChar (s : String) (a b : Char) : String :=
  String.mk (s.data.map fun c => if c = a then b else c)

/-- Python ASCII whitespace, as stripped by `str.strip()`. -/
def isSpaceChar (c : Char) : Bool :=
  c = ' ' ∨ c = '\t' ∨ c = '\n' ∨ c = '\x0d' ∨ c = '\x0b' ∨ c = '\x0c'

/-- Python `str.strip()` (ASCII whitespace). -/
def pyStrip (s : String) : String :=
  String.mk (((s.data.dropWhile isSpaceChar).reverse.dropWhile isSpaceChar).reverse)

/-- Python `str.upper()` (ASCII subset). -/
def pyUpper (s : String) : String :=
  String.mk (s.data.map Char.toUpper)

/-- Python `c in s` membership test for a single character. -/
def containsChar (s : String) (c : Char) : Bool :=
  s.data.contains c

/-- Python `str.endswith(suffix)`. -/
def pyEndsWith (s suffix : String) : Bool :=
  decide (s.data.reverse.take suffix.data.length = suffix.data.reverse)

/-- Value of a digit string, scanning left to right; `none` on a non-digit.
An empty list yields the accumulator. -/
def digitsToNatAux (acc : Nat) : List Char → Option Nat
  | [] => some acc
  | c :: rest =>
    match digitVal c with
    | some d => digitsToNatAux (acc * 10 + d) rest
    | none => none

/-- Models Python `float()` on plain decimal numerals: optional sign, then
digits with at most one point, at least one digit overall.  Exponent,
`inf`/`nan`, underscore and surrounding-whitespace forms are outside the
modelled subset (no claim exercises them). -/
def pyFloat (s : String) : Option Rat :=
  let (sign, cs) :=
    match s.data with
    | '-' :: rest => ((-1 : Rat), rest)
    | '+' :: rest => ((1 : Rat), rest)
    | cs => ((1 : Rat), cs)
  match splitOnChar '.' cs with
  | [ip] =>
    if ip = [] then none
    else (digitsToNatAux 0 ip).map fun n => sign * (n : Rat)
  | [ip, fp] =>
    if ip = [] ∧ fp = [] then none
    else
      match digitsToNatAux 0 ip, digitsToNatAux 0 fp with
      | some i, some f =>
        some (sign * ((i : Rat) + (f : Rat) / ((10 : Rat) ^ fp.length)))
      | _, _ => none
  | _ => none

/-- A 1- or 2-digit numeric field, as `strptime` `%H`/`%M` accepts. -/
def parseField2 (s : List Char) : Option Nat :=
  match s with
  | [c] => digitVal c
  | [c1, c2] => do
    let a ← digitVal c1
    let b ← digitVal c2
    pure (a * 10 + b)
  | _ => none

/-- Models `datetime.strptime(s, "%H:%M").time()` as seconds after
midnight; `none` models the `ValueError` path. -/
def parseTimeHM (s : String) : Option Nat :=
  match splitOnChar ':' s.data with
  | [hs, ms] => do
    let h ← parseField2 hs
    let m ← parseField2 ms
    if h ≤ 23 ∧ m ≤ 59 then pure (h * 3600 + m * 60) else none
  | _ => none

/-- Embedding of `utils.is_inactive` (utils.py lines 17-59).  The config
lookups are replaced by their results (`inactivityEnabled` and the two
window strings); the current local time is passed as seconds after
midnight.  A `ValueError` from `strptime` returns `false` (skip check). -/
def is_inactive (inactivityEnabled : Bool) (startTimeStr endTimeStr : String)
    (currentTime : Nat) : Bool :=
  if !inactivityEnabled then false
  else
    match parseTimeHM startTimeStr, parseTimeHM endTimeStr with
    | some startTime, some endTime =>
      -- Handle overnight inactivity period (e.g., 21:00 to 05:30)
      if endTime < startTime then
        if startTime ≤ currentTime ∨ currentTime < endTime then true else false
      -- Handle daytime inactivity period (e.g., 10:00 to 14:00)
      else
        if startTime ≤ currentTime ∧ currentTime < endTime then true else false
    | _, _ => false

/-- A device snapshot row: attribute name to optional raw text, in
insertion order (Python dict). -/
abbrev RowData := List (String × Option String)

/-- Gregorian leap-year rule, as used by `datetime`. -/
def isLeapYear (y : Nat) : Bool :=
  y % 4 = 0 ∧ (y % 100 ≠ 0 ∨ y % 400 = 0)

/-- Days in a month, as validated by `datetime` constructors. -/
def daysInMonth (y m : Nat) : Nat :=
  if m = 2 then (if isLeapYear y then 29 else 28)
  else if m = 4 ∨ m = 6 ∨ m = 9 ∨ m = 11 then 30 else 31

/-- Models `datetime.strptime(value, "%Y-%m-%dT%H:%M:%SZ")` (utils.py line
125): strict `YYYY-MM-DDTHH:MM:SSZ` shape and calendar-valid fields.  The
result is packed into one natural number whose `<` agrees with `datetime`
comparison, since the packing is strictly monotone in the lexicographic
field order.  `twoDigits` reads one two-digit field. -/
def twoDigits (c1 c2 : Char) : Option Nat := do
  let a ← digitVal c1
  let b ← digitVal c2
  pure (a * 10 + b)

def parseUtcIso (s : String) : Option Nat :=
  match s.data with
  | [y1, y2, y3, y4, c1, m1, m2, c2, d1, d2, c3, h1, h2, c4, n1, n2, c5, s1, s2, c6] =>
    if c1 = '-' ∧ c2 = '-' ∧ c3 = 'T' ∧ c4 = ':' ∧ c5 = ':' ∧ c6 = 'Z' then
      match twoDigits y1 y2, twoDigits y3 y4, twoDigits m1 m2, twoDigits d1 d2,
            twoDigits h1 h2, twoDigits n1 n2, twoDigits s1 s2 with
      | some yh, some yl, some m, some d, some h, some mi, some sec =>
        let y := yh * 100 + yl
        if 1 ≤ y ∧ 1 ≤ m ∧ m ≤ 12 ∧ 1 ≤ d ∧ d ≤ daysInMonth y m ∧
            h ≤ 23 ∧ mi ≤ 59 ∧ sec ≤ 59 then
          some (((((y * 13 + m) * 32 + d) * 24 + h) * 60 + mi) * 60 + sec)
        else none
      | _, _, _, _, _, _, _ => none
    else none
  | _ => none

/-- Accumulator of `utils.aggregate_plant_data`: the six running sums and
the latest-timestamp tracking pairs (string shown, comparison key). -/
structure AggAcc where
  sumPower : Rat
  sumEnergyToday : Rat
  sumEnergyMonth : Rat
  sumEnergyYear : Rat
  sumEnergyTotal : Rat
  sumPanelPower : Rat
  latestUpdateStr : Option String
  latestServerStr : Option String
  cmpUpdate : Option Nat
  cmpServer : Option Nat
deriving Repr

/-- Zero-initialised aggregation accumulator (utils.py lines 68-77). -/
def initAggAcc : AggAcc :=
  ⟨0, 0, 0, 0, 0, 0, none, none, none, none⟩

/-- The summable-attribute test of utils.py lines 90-93. -/
def summableAttr (attrName : String) : Bool :=
  (attrName = "Power" ∨ attrName = "Energy_Today" ∨
    attrName = "Energy_This_Month" ∨ attrName = "Energy_This_Year" ∨
    attrName = "Energy_Total") ∨ pyEndsWith attrName "_Panel_Power"

/-- Numeric-summing step for one attribute (utils.py lines 88-117): a
summable attribute with a non-`None` value is converted with commas
replaced by points and added to its bucket; a conversion failure only
skips the value. -/
def aggStep (acc : AggAcc) (attrName : String) (valueStr : Option String) :
    AggAcc :=
  match valueStr with
  | some v =>
    if summableAttr attrName then
      match pyFloat (replaceChar v ',' '.') with
      | some f =>
        if attrName = "Power" then { acc with sumPower := acc.sumPower + f }
        else if attrName = "Energy_Today" then
          { acc with sumEnergyToday := acc.sumEnergyToday + f }
        else if attrName = "Energy_This_Month" then
          { acc with sumEnergyMonth := acc.sumEnergyMonth + f }
        else if attrName = "Energy_This_Year" then
          { acc with sumEnergyYear := acc.sumEnergyYear + f }
        else if attrName = "Energy_Total" then
          { acc with sumEnergyTotal := acc.sumEnergyTotal + f }
        else if pyEndsWith attrName "_Panel_Power" then
          { acc with sumPanelPower := acc.sumPanelPower + f }
        else acc
      | none => acc
    else acc
  | none => acc

/-- Latest-timestamp step for one attribute (utils.py lines 119-142): a
parseable `Update_time`/`Server_Time` replaces the stored latest when
strictly greater; an unparsable one is used verbatim only as a first-seen
fallback. -/
def aggTimeStep (acc : AggAcc) (attrName : String) (valueStr : Option String) :
    AggAcc :=
  if attrName = "Update_time" ∨ attrName = "Server_Time" then
    match valueStr with
    | some v =>
      if v = "" then acc
      else
        match parseUtcIso v with
        | some t =>
          if attrName = "Update_time" then
            match acc.cmpUpdate with
            | none => { acc with cmpUpdate := some t, latestUpdateStr := some v }
            | some prev =>
              if prev < t then
                { acc with cmpUpdate := some t, latestUpdateStr := some v }
              else acc
          else
            match acc.cmpServer with
            | none => { acc with cmpServer := some t, latestServerStr := some v }
            | some prev =>
              if prev < t then
                { acc with cmpServer := some t, latestServerStr := some v }
              else acc
        | none =>
          let acc1 :=
            if attrName = "Update_time" ∧ acc.latestUpdateStr = none then
              { acc with latestUpdateStr := some v }
            else acc
          if attrName = "Server_Time" ∧ acc1.latestServerStr = none then
            { acc1 with latestServerStr := some v }
          else acc1
    | none => acc
  else acc

/-- One device's contribution (utils.py lines 79-146): an empty row is
skipped; otherwise every attribute passes through the summing and the
timestamp steps. -/
def aggDevice (acc : AggAcc) (row : RowData) : AggAcc :=
  if row = [] then acc
  else row.foldl (fun a p => aggTimeStep (aggStep a p.1 p.2) p.1 p.2) acc

/-- Aggregated plant summary (utils.py lines 148-157). -/
structure PlantData where
  Power : Rat
  Energy_Today : Rat
  Energy_This_Month : Rat
  Energy_This_Year : Rat
  Energy_Total : Rat
  Panel_Power : Rat
  Update_time : Option String
  Server_Time : Option String
deriving Repr

/-- Embedding of `utils.aggregate_plant_data` (utils.py lines 62-159).
`none` models the `{}` returned for absent/empty input. -/
def aggregate_plant_data (fetchedData : List (String × RowData)) :
    Option PlantData :=
  if fetchedData = [] then none
  else
    let acc := fetchedData.foldl (fun a p => aggDevice a p.2) initAggAcc
    some
      { Power := pyRound2 acc.sumPower
        Energy_Today := pyRound2 acc.sumEnergyToday
        Energy_This_Month := pyRound2 acc.sumEnergyMonth
        Energy_This_Year := pyRound2 acc.sumEnergyYear
        Energy_Total := pyRound2 acc.sumEnergyTotal
        Panel_Power := pyRound2 acc.sumPanelPower
        Update_time := acc.latestUpdateStr
        Server_Time := acc.latestServerStr }

/-- The specification-side reading of one entry's contribution to the
plant `Power` sum: the comma-normalised parsed value when the attribute is
`Power` and parsing succeeds, and nothing otherwise. -/
def powerContrib (attrName : String) (v : Option String) : Rat :=
  if attrName = "Power" then
    match v with
    | some s => (pyFloat (replaceChar s ',' '.')).getD 0
    | none => 0
  else 0

/-- The specification-side reading of the `Power` aggregation: the sum of
`powerContrib` over every entry of every snapshot; unparsable or absent
values contribute nothing. -/
def specPowerSum (data : List (String × RowData)) : Rat :=
  (data.map fun p => ((p.2.map fun q => powerContrib q.1 q.2).sum)).sum

/-- Python `dict.get(k)`: the binding for `k`, else `None`. -/
def dictGet {α : Type} (l : List (String × α)) (k : String) : Option α :=
  match l with
  | [] => none
  | (k2, v) :: rest => if k2 = k then some v else dictGet rest k

/-- Python dict assignment `d[k] = v`: replace the binding for `k`, or
append a new one. -/
def dictSet {α : Type} (l : List (String × α)) (k : String) (v : α) :
    List (String × α) :=
  match l with
  | [] => [(k, v)]
  | (k2, v2) :: rest =>
    if k2 = k then (k, v) :: rest else (k2, v2) :: dictSet rest k v

/-- `COLUMN_MAPPING` from const.py lines 48-66. -/
def COLUMN_MAPPING : List (String × Nat) :=
  [("ID", 0), ("Update_time", 1), ("Server_Time", 17), ("Panel_Channel", 3),
    ("Panel_Voltage", 4), ("Panel_Current", 5), ("Panel_Power", 6),
    ("Phase", 8), ("Voltage", 9), ("Current", 10), ("Frequency", 11),
    ("Power", 12), ("Energy_Today", 13), ("Energy_This_Month", 14),
    ("Energy_This_Year", 15), ("Energy_Total", 16), ("Strength_Signal", 18)]

/-- The `Update_time` admissibility check of web_scraper.py line 302 (also
reused at run.py line 283): the value must be present, truthy, and contain
the character `Z`. -/
def validUpdateTimeKey : Option String → Bool
  | none => false
  | some s => if s = "" then false else containsChar s 'Z'

/-- Per-device snapshot storage of web_scraper.py lines 299-313: the
processed row (which already carries its `Alias` entry) is keyed by its
processed `Update_time`; a key failing `validUpdateTimeKey` means the
single-row map stays empty, so nothing is stored for the device. -/
def storeDeviceRow (allDeviceData : List (String × RowData)) (deviceSn : String)
    (rowData : RowData) : List (String × RowData) :=
  let updateTimeKey := (dictGet rowData "Update_time").join
  if validUpdateTimeKey updateTimeKey then dictSet allDeviceData deviceSn rowData
  else allDeviceData

/-- The device loop of `_fetch_data_sync` restricted to row storage
(web_scraper.py lines 197-313, successful-fetch path): each configured
device contributes through `storeDeviceRow` independently. -/
def fetch_data_rows (devices : List (String × RowData)) :
    List (String × RowData) :=
  devices.foldl (fun acc p => storeDeviceRow acc p.1 p.2) []

/-- The multi-channel fan-out of web_scraper.py lines 279-295 for one of
the three panel-level attributes: the list of `row_data` assignments it
performs (Python dict assignment makes a later duplicate channel label
overwrite an earlier one; key membership is unaffected).  The channel
column index lookup, the channel raw value and the attribute raw value are
taken from `COLUMN_MAPPING` and the raw row exactly as in the source. -/
def processPanelAttr (rawRow : RowData) (columnName : String) :
    List (String × String) :=
  let channelColIndex := dictGet COLUMN_MAPPING "Panel_Channel"
  let rawChannelValue := (dictGet rawRow "Panel_Channel").join
  let rawValue := (dictGet rawRow columnName).join
  match channelColIndex, rawChannelValue, rawValue with
  | some _, some ch, some v =>
    let channelValues := pySplit ch '\n'
    let values := pySplit v '\n'
    if channelValues.length = values.length then
      (channelValues.zip values).foldr
        (fun cv acc =>
          let channelKey := pyUpper (pyStrip cv.1)
          if channelKey ≠ "" then
            (channelKey ++ "_" ++ columnName, pyStrip cv.2) :: acc
          else acc) []
    else [(columnName, v)]
  | _, _, some v => [(columnName, v)]
  | _, _, none => []

/-- Outcome of one attempt of the per-device fetch loop, as seen at the
`try` block of web_scraper.py lines 205-314: the page loads and the first
table row is extracted and processed (`rowSuccess`), the table is empty
(`noRows`), a connection-class exception is raised (`TimeoutException`,
connection-refused, dead-session driver error), or any other exception. -/
inductive FetchOutcome where
  | rowSuccess (rowData : RowData)
  | noRows
  | connClassError
  | otherError
deriving DecidableEq, Repr

/-- What the per-device loop produced: the snapshot stored into
`all_device_data` (if any) and how many recovery re-logins
(`validate_connection` calls from the recovery branch) completed. -/
structure DeviceFetchResult where
  stored : Option RowData
  relogins : Nat
deriving DecidableEq, Repr

/-- The per-device attempt loop of `_fetch_data_sync` (web_scraper.py
lines 202-372) with `max_attempts` as a parameter; the source fixes it to
2 (`fetch_device`).  `outcomes n` is the world's response to attempt `n`.
On `rowSuccess` the `Update_time` guard of lines 300-313 decides whether
the row is stored, then the loop breaks; on `noRows` or an unknown error
it breaks; on a connection-class error the recovery branch (quit driver,
sleep 5 s, `validate_connection`, `continue`) runs only under the
source's literal guard `max_attempts < 2` (line 349), otherwise the
microinverter read is aborted (lines 362-365).  The fuel argument equals
`maxAttempts - attempt` on entry, which bounds the remaining iterations. -/
def fetchAttemptLoop (outcomes : Nat → FetchOutcome) (maxAttempts : Nat) :
    Nat → Nat → Nat → DeviceFetchResult
  | 0, _, relogins => ⟨none, relogins⟩
  | fuel + 1, attempt, relogins =>
    if attempt < maxAttempts then
      let attempt2 := attempt + 1
      match outcomes attempt2 with
      | .rowSuccess rowData =>
        ⟨if validUpdateTimeKey ((dictGet rowData "Update_time").join) then
            some rowData
          else none, relogins⟩
      | .noRows => ⟨none, relogins⟩
      | .connClassError =>
        if maxAttempts < 2 then
          fetchAttemptLoop outcomes maxAttempts fuel attempt2 (relogins + 1)
        else ⟨none, relogins⟩
      | .otherError => ⟨none, relogins⟩
    else ⟨none, relogins⟩

/-- The source's per-device loop: `max_attempts = 2`, `attempt = 0`
(web_scraper.py lines 202-204). -/
def fetch_device (outcomes : Nat → FetchOutcome) : DeviceFetchResult :=
  fetchAttemptLoop outcomes 2 2 0 0

/-- Scheduler state of run.py lines 56-58: per-serial last known
`Update_time`, monotonic instant of the last data change, and the
extended-interval flag. -/
structure SchedulerState where
  lastKnownUpdateTimes : List (String × String)
  lastDataChangeTimestamp : Option Nat
  usingExtendedInterval : Bool
deriving DecidableEq, Repr

/-- The change-detection step of `run_cycle` (run.py lines 277-301), run
once discovery has completed: each device with a valid `Update_time` is
compared against the stored value; any difference updates the store and
marks the cycle changed; a changed cycle resets the change instant to
`now` and clears the extended-interval flag. -/
def detectDataChanges (s : SchedulerState)
    (deviceData : List (String × RowData)) (now : Nat) : SchedulerState :=
  let step := deviceData.foldl
    (fun (acc : List (String × String) × Bool) p =>
      match (dictGet p.2 "Update_time").join with
      | some cur =>
        if cur = "" then acc
        else if containsChar cur 'Z' then
          if dictGet acc.1 p.1 ≠ some cur then (dictSet acc.1 p.1 cur, true)
          else acc
        else acc
      | none => acc)
    (s.lastKnownUpdateTimes, false)
  if step.2 then
    { lastKnownUpdateTimes := step.1, lastDataChangeTimestamp := some now,
      usingExtendedInterval := false }
  else
    { s with lastKnownUpdateTimes := step.1 }

/-- The interval-decision step of the main loop (run.py lines 432-443):
when not already extended and the time since the last data change exceeds
the threshold, switch the flag on; nothing here ever switches it off. -/
def decideInterval (s : SchedulerState) (now threshold : Nat) :
    SchedulerState :=
  if ¬ s.usingExtendedInterval then
    match s.lastDataChangeTimestamp with
    | some t =>
      if now - t > threshold then { s with usingExtendedInterval := true }
      else s
    | none => s
  else s

/-- `%02d` rendering for values below 100, via `Nat.digitChar`. -/
def pad2 (n : Nat) : List Char :=
  [Nat.digitChar (n / 10 % 10), Nat.digitChar (n % 10)]

/-- `%04d` rendering for values below 10000, via `Nat.digitChar`. -/
def pad4 (n : Nat) : List Char :=
  [Nat.digitChar (n / 1000 % 10), Nat.digitChar (n / 100 % 10),
    Nat.digitChar (n / 10 % 10), Nat.digitChar (n % 10)]

/-- Python `date.isoformat()`: the `YYYY-MM-DD` rendering. -/
def isoformat (d : Date) : String :=
  String.mk (pad4 d.year ++ '-' :: pad2 d.month ++ '-' :: pad2 d.day)

/-- Python `date.fromisoformat` on the strict `YYYY-MM-DD` shape; `none`
models the `ValueError` path, and field validity matches the `date`
constructor. -/
def fromisoformat (s : String) : Option Date :=
  match s.data with
  | [y1, y2, y3, y4, c1, m1, m2, c2, d1, d2] =>
    if c1 = '-' ∧ c2 = '-' then
      match twoDigits y1 y2, twoDigits y3 y4, twoDigits m1 m2,
          twoDigits d1 d2 with
      | some yh, some yl, some m, some d =>
        let y := yh * 100 + yl
        if 1 ≤ y ∧ 1 ≤ m ∧ m ≤ 12 ∧ 1 ≤ d ∧ d ≤ daysInMonth y m then
          some ⟨y, m, d⟩
        else none
      | _, _, _, _ => none
    else none
  | _ => none

/-- Calendar validity of a `Date`, as enforced by the Python `date`
constructor (year 1-9999, day within the month). -/
def ValidDate (d : Date) : Prop :=
  1 ≤ d.year ∧ d.year ≤ 9999 ∧ 1 ≤ d.month ∧ d.month ≤ 12 ∧
  1 ≤ d.day ∧ d.day ≤ daysInMonth d.year d.month

/-- The durable peak-power file as seen by the persistence layer: missing
file, undecodable JSON, or a decoded record with its two optional fields
(`none` covers both an absent key and a JSON `null`). -/
inductive StoredFile where
  | absent
  | malformed
  | record (peakField : Option Rat) (dateField : Option String)
deriving DecidableEq, Repr

/-- Embedding of `persistence.load_peak_power_state` (persistence.py lines
10-25).  Absent file: `FileNotFoundError` path; malformed content:
`json.JSONDecodeError` path; a record reads the peak with default `0.0`,
maps a missing/null/empty date field to `None`, and a date string on which
`date.fromisoformat` raises re-initialises the whole state to
`(0.0, None)` via the caught `ValueError`.  Totality of this function is
the never-raises guarantee. -/
def load_peak_power_state : StoredFile → Rat × Option Date
  | .absent => (0, none)
  | .malformed => (0, none)
  | .record peakField dateField =>
    let peak := peakField.getD 0
    match dateField with
    | none => (peak, none)
    | some s =>
      if s = "" then (peak, none)
      else
        match fromisoformat s with
        | some d => (peak, some d)
        | none => (0, none)

/-- Embedding of `persistence.save_peak_power_state` (persistence.py lines
27-38): writes the record with the date serialised by `isoformat` (a
`date` object is always truthy) or stored as `null`. -/
def save_peak_power_state (peak : Rat) (resetDate : Option Date) :
    StoredFile :=
  .record (some peak) (resetDate.map isoformat)

theorem floor_le_roundHalfEven (x : Rat) : Int.floor x ≤ roundHalfEven x := by
  simp only [roundHalfEven]
  split_ifs <;> omega

/-- If the previous peak is exactly representable with two decimals (the
invariant maintained by the program, which only ever stores `round(x, 2)`
or `0.0`), a strictly larger reading never rounds below it. -/
theorem pyRound2_ge_of_round2_lt (prev c : Rat) (hfix : prev = pyRound2 prev)
    (hlt : prev < c) : prev ≤ pyRound2 c := by
  set m : Int := roundHalfEven (prev * 100) with hm
  have hprev : prev * 100 = (m : Rat) := by
    rw [hfix, pyRound2, ← hm]
    have h100 : (100 : Rat) ≠ 0 := by norm_num
    field_simp
  have hfloor : m ≤ Int.floor (c * 100) := by
    rw [Int.le_floor]
    have : prev * 100 < c * 100 := by
      have : (0:Rat) < 100 := by norm_num
      exact (mul_lt_mul_right this).mpr hlt
    calc (m : Rat) = prev * 100 := hprev.symm
      _ ≤ c * 100 := le_of_lt this
  have hrhe : m ≤ roundHalfEven (c * 100) :=
    le_trans hfloor (floor_le_roundHalfEven _)
  have h100 : (0:Rat) < 100 := by norm_num
  have : (m : Rat) / 100 ≤ ((roundHalfEven (c * 100) : Int) : Rat) / 100 := by
    apply div_le_div_of_nonneg_right ?_ (le_of_lt h100)
    exact_mod_cast hrhe
  calc prev = prev * 100 / 100 := by field_simp
    _ = (m : Rat) / 100 := by rw [hprev]
    _ ≤ _ := this

/-- C2 counterexample: with `reset_date` absent, `previous_peak = 5` and
`current_power = 0.999`, the call resets, raises, reports `changed = true`,
but the resulting peak is `round(0.999, 2) = 1.0`, which exceeds
`max(0.0, current_power) = 0.999`. -/
theorem C2_counterexample :
    (calculate_peak_power ⟨2026, 10, 12⟩ (some (999/1000)) 5 none).2.2 = true ∧
    ¬ ((calculate_peak_power ⟨2026, 10, 12⟩ (some (999/1000)) 5 none).1
        ≤ max 0 (999/1000)) := by
  have h1 : calculate_peak_power ⟨2026, 10, 12⟩ (some (999/1000)) 5 none
      = (1, some ⟨2026, 10, 12⟩, true) := by
    simp only [calculate_peak_power, if_pos (Or.inl rfl)]
    norm_num [pyRound2, roundHalfEven, Int.floor_eq_iff]
  rw [h1]
  refine ⟨rfl, ?_⟩
  rw [max_eq_right (by norm_num : (0:Rat) ≤ 999/1000)]
  norm_num

/-- C2 (amended): when `reset_date` is absent or differs from `today`,
`calculate_peak_power` performs the daily reset before the raise and
returns `changed = true`, reset date `today`, and a resulting peak at most
`max(0.0, round(current_power, 2))` (absent power counting as 0); in
particular a positive first reading of the new day immediately becomes the
new peak in the same call. -/
theorem C2_update_peak_new_day (today : Date) (cp : Option Rat) (prev : Rat)
    (rd : Option Date) (h : rd = none ∨ rd ≠ some today) :
    (calculate_peak_power today cp prev rd).2.2 = true ∧
    (calculate_peak_power today cp prev rd).2.1 = some today ∧
    (calculate_peak_power today cp prev rd).1 ≤ max 0 (cp.elim 0 pyRound2) ∧
    (∀ c, cp = some c → 0 < c →
      (calculate_peak_power today cp prev rd).1 = pyRound2 c) := by
  simp only [calculate_peak_power, if_pos h]
  cases cp with
  | none =>
    refine ⟨rfl, rfl, ?_, ?_⟩
    · exact le_max_left 0 _
    · intro c hc
      exact absurd hc (by simp)
  | some c =>
    dsimp only
    by_cases hc : c > 0
    · rw [if_pos hc]
      refine ⟨rfl, rfl, ?_, ?_⟩
      · exact le_max_right 0 _
      · intro c' hc' _
        cases hc'
        rfl
    · rw [if_neg hc]
      refine ⟨rfl, rfl, ?_, ?_⟩
      · exact le_max_left 0 _
      · intro c' hc' hpos
        cases hc'
        exact absurd hpos hc

/-- Witness for `C2_update_peak_new_day` at a concrete input. -/
theorem C2_update_peak_new_day_witness :
    (calculate_peak_power ⟨2026, 10, 12⟩ (some 2) 5 none).2.2 = true ∧
    (calculate_peak_power ⟨2026, 10, 12⟩ (some 2) 5 none).2.1
      = some ⟨2026, 10, 12⟩ ∧
    (calculate_peak_power ⟨2026, 10, 12⟩ (some 2) 5 none).1
      ≤ max 0 ((some (2:Rat)).elim 0 pyRound2) ∧
    (∀ c, (some (2:Rat)) = some c → 0 < c →
      (calculate_peak_power ⟨2026, 10, 12⟩ (some 2) 5 none).1 = pyRound2 c) :=
  C2_update_peak_new_day ⟨2026, 10, 12⟩ (some 2) 5 none (Or.inl rfl)

/-- C10 counterexample: same-day call with `previous_peak = 0.004` and
`current_power = 0.0041 > previous_peak`; the raise stores
`round(0.0041, 2) = 0.0`, so the returned peak is strictly below the
previous peak — the same-day peak can decrease. -/
theorem C10_counterexample :
    (calculate_peak_power ⟨2026, 10, 12⟩ (some (41/10000)) (1/250)
        (some ⟨2026, 10, 12⟩)).2.2 = true ∧
    (calculate_peak_power ⟨2026, 10, 12⟩ (some (41/10000)) (1/250)
        (some ⟨2026, 10, 12⟩)).1 < 1/250 := by
  have h1 : calculate_peak_power ⟨2026, 10, 12⟩ (some (41/10000)) (1/250)
      (some ⟨2026, 10, 12⟩) = (0, some ⟨2026, 10, 12⟩, true) := by
    simp only [calculate_peak_power, reduceCtorEq, ne_eq, Option.some.injEq,
      eq_self_iff_true, not_true, or_self, or_false, false_or, if_false, if_true]
    norm_num [pyRound2, roundHalfEven, Int.floor_eq_iff]
  rw [h1]
  exact ⟨rfl, by norm_num⟩

/-- C10 (amended): for a same-day call (`last_reset_date = today`) whose
previous peak is exactly representable with two decimals (the invariant the
program maintains, since it only ever stores `0.0` or `round(x, 2)`): the
returned peak never decreases, the returned reset date equals the input
reset date, and `changed = true` exactly when `current_power` is present
and strictly exceeds the previous peak. -/
theorem C10_same_day_peak (today : Date) (cp : Option Rat) (prev : Rat)
    (hfix : prev = pyRound2 prev) :
    prev ≤ (calculate_peak_power today cp prev (some today)).1 ∧
    (calculate_peak_power today cp prev (some today)).2.1 = some today ∧
    ((calculate_peak_power today cp prev (some today)).2.2 = true ↔
      ∃ c, cp = some c ∧ prev < c) := by
  have hno : ¬ ((some today : Option Date) = none ∨ some today ≠ some today) := by
    simp
  simp only [calculate_peak_power, if_neg hno]
  cases cp with
  | none =>
    refine ⟨le_refl _, rfl, ?_⟩
    simp
  | some c =>
    dsimp only
    by_cases hc : c > prev
    · rw [if_pos hc]
      refine ⟨pyRound2_ge_of_round2_lt prev c hfix hc, rfl, ?_⟩
      simp only [true_iff]
      exact ⟨c, rfl, hc⟩
    · rw [if_neg hc]
      refine ⟨le_refl _, rfl, ?_⟩
      constructor
      · intro hfalse
        exact absurd hfalse (by simp)
      · rintro ⟨c', hc', hlt⟩
        cases hc'
        exact absurd hlt hc

theorem aggTimeStep_sumPower (a : AggAcc) (attr : String) (v : Option String) :
    (aggTimeStep a attr v).sumPower = a.sumPower := by
  simp only [aggTimeStep]
  repeat' split <;> try rfl

theorem aggStep_sumPower (a : AggAcc) (attr : String) (v : Option String) :
    (aggStep a attr v).sumPower = a.sumPower + powerContrib attr v := by
  by_cases hp : attr = "Power"
  · subst hp
    cases v with
    | none => simp [aggStep, powerContrib]
    | some s =>
      simp only [aggStep, powerContrib, if_pos rfl,
        show summableAttr "Power" = true by decide, if_true]
      cases hf : pyFloat (replaceChar s ',' '.') with
      | none => simp
      | some f => simp
  · cases v with
    | none => simp [aggStep, powerContrib, hp]
    | some s =>
      simp only [aggStep, powerContrib, if_neg hp]
      split
      · split
        · split_ifs <;> simp_all
        · simp
      · simp

theorem aggRow_sumPower (row : RowData) (a : AggAcc) :
    (row.foldl (fun a p => aggTimeStep (aggStep a p.1 p.2) p.1 p.2) a).sumPower
      = a.sumPower + (row.map fun q => powerContrib q.1 q.2).sum := by
  induction row generalizing a with
  | nil => simp
  | cons p rest ih =>
    simp only [List.foldl_cons, List.map_cons, List.sum_cons]
    rw [ih, aggTimeStep_sumPower, aggStep_sumPower]
    ring

theorem aggDevice_sumPower (a : AggAcc) (row : RowData) :
    (aggDevice a row).sumPower
      = a.sumPower + (row.map fun q => powerContrib q.1 q.2).sum := by
  by_cases h : row = []
  · subst h
    simp [aggDevice]
  · rw [aggDevice, if_neg h, aggRow_sumPower]

theorem aggFold_sumPower (data : List (String × RowData)) (a : AggAcc) :
    (data.foldl (fun a p => aggDevice a p.2) a).sumPower
      = a.sumPower + specPowerSum data := by
  induction data generalizing a with
  | nil => simp [specPowerSum]
  | cons p rest ih =>
    simp only [List.foldl_cons]
    rw [ih, aggDevice_sumPower]
    simp only [specPowerSum, List.map_cons, List.sum_cons]
    ring

/-- C6: with the overnight window 21:00-05:30, `is_inactive` is true at
23:00 and 02:00 local time and false at 06:00 and 20:00; for a daytime
window (start <= end) it is true exactly when start <= current < end. -/
theorem C6_is_inactive_window (stS enS : String) (st en cur : Nat)
    (hs : parseTimeHM stS = some st) (he : parseTimeHM enS = some en)
    (hday : st ≤ en) :
    (is_inactive true "21:00" "05:30" (23 * 3600) = true ∧
     is_inactive true "21:00" "05:30" (2 * 3600) = true ∧
     is_inactive true "21:00" "05:30" (6 * 3600) = false ∧
     is_inactive true "21:00" "05:30" (20 * 3600) = false) ∧
    (is_inactive true stS enS cur = true ↔ (st ≤ cur ∧ cur < en)) := by
  constructor
  · refine ⟨?_, ?_, ?_, ?_⟩ <;> decide
  · simp only [is_inactive, hs, he, Bool.not_true, if_neg (not_lt.mpr hday)]
    split_ifs <;> simp_all

/-- Witness for `C6_is_inactive_window` at a concrete daytime window. -/
theorem C6_is_inactive_window_witness :
    ((is_inactive true "21:00" "05:30" (23 * 3600) = true ∧
      is_inactive true "21:00" "05:30" (2 * 3600) = true ∧
      is_inactive true "21:00" "05:30" (6 * 3600) = false ∧
      is_inactive true "21:00" "05:30" (20 * 3600) = false) ∧
     (is_inactive true "10:00" "14:00" (12 * 3600) = true ↔
       (10 * 3600 ≤ 12 * 3600 ∧ 12 * 3600 < 14 * 3600))) :=
  C6_is_inactive_window "10:00" "14:00" (10 * 3600) (14 * 3600) (12 * 3600)
    (by decide) (by decide) (by decide)

theorem storeDeviceRow_invalid (acc : List (String × RowData)) (sn : String)
    (row : RowData)
    (hbad : validUpdateTimeKey ((dictGet row "Update_time").join) = false) :
    storeDeviceRow acc sn row = acc := by
  simp only [storeDeviceRow, hbad, Bool.false_eq_true, if_false]

theorem dictGet_dictSet {α : Type} (l : List (String × α)) (k : String) (v : α) :
    dictGet (dictSet l k v) k = some v := by
  induction l with
  | nil => simp [dictGet, dictSet]
  | cons p rest ih =>
    obtain ⟨k2, v2⟩ := p
    by_cases h : k2 = k
    · subst h
      simp [dictGet, dictSet]
    · simp [dictGet, dictSet, h, ih]

/-- C3: a device whose processed `Update_time` fails the UTC-key check
(`Z` missing, empty, or absent) contributes no snapshot to the cycle's
result map — removing it leaves the map unchanged — while a device with a
valid key is stored regardless of the devices processed before it. -/
theorem C3_invalid_update_time_excluded (pre post devices : List (String × RowData))
    (sn : String) (row : RowData) (sn2 : String) (row2 : RowData)
    (hbad : validUpdateTimeKey ((dictGet row "Update_time").join) = false)
    (hgood : validUpdateTimeKey ((dictGet row2 "Update_time").join) = true) :
    fetch_data_rows (pre ++ (sn, row) :: post) = fetch_data_rows (pre ++ post) ∧
    dictGet (fetch_data_rows (devices ++ [(sn2, row2)])) sn2 = some row2 := by
  constructor
  · simp only [fetch_data_rows, List.foldl_append, List.foldl_cons]
    rw [storeDeviceRow_invalid _ _ _ hbad]
  · simp only [fetch_data_rows, List.foldl_append, List.foldl_cons,
      List.foldl_nil]
    rw [show storeDeviceRow (List.foldl (fun acc p => storeDeviceRow acc p.1 p.2) [] devices) sn2 row2
        = dictSet (List.foldl (fun acc p => storeDeviceRow acc p.1 p.2) [] devices) sn2 row2 by
      simp only [storeDeviceRow, hgood, if_true]]
    exact dictGet_dictSet _ _ _

/-- Witness for `C3_invalid_update_time_excluded`: a device whose
processed `Update_time` lacks `Z` is dropped; the other devices keep their
snapshots. -/
theorem C3_invalid_update_time_excluded_witness :
    fetch_data_rows
        [("a", [("Update_time", some "2026-10-12T10:00:00Z")]),
         ("b", [("Update_time", some "2026-10-12 10:00:00")]),
         ("c", [("Update_time", some "2026-10-12T10:05:00Z")])]
      = fetch_data_rows
        [("a", [("Update_time", some "2026-10-12T10:00:00Z")]),
         ("c", [("Update_time", some "2026-10-12T10:05:00Z")])] ∧
    dictGet (fetch_data_rows
        [("b", [("Update_time", some "2026-10-12 10:00:00")]),
         ("c", [("Update_time", some "2026-10-12T10:05:00Z")])]) "c"
      = some [("Update_time", some "2026-10-12T10:05:00Z")] :=
  C3_invalid_update_time_excluded
    [("a", [("Update_time", some "2026-10-12T10:00:00Z")])]
    [("c", [("Update_time", some "2026-10-12T10:05:00Z")])]
    [("b", [("Update_time", some "2026-10-12 10:00:00")])]
    "b" [("Update_time", some "2026-10-12 10:00:00")]
    "c" [("Update_time", some "2026-10-12T10:05:00Z")]
    (by decide) (by decide)

theorem mem_fanoutFold (l : List (String × String)) (nm : String)
    (e : String × String)
    (he : e ∈ l.foldr
      (fun cv acc =>
        let channelKey := pyUpper (pyStrip cv.1)
        if channelKey ≠ "" then
          (channelKey ++ "_" ++ nm, pyStrip cv.2) :: acc
        else acc) []) :
    ∃ cv ∈ l, e = (pyUpper (pyStrip cv.1) ++ "_" ++ nm, pyStrip cv.2) ∧
      pyUpper (pyStrip cv.1) ≠ "" := by
  induction l with
  | nil => simp at he
  | cons cv rest ih =>
    simp only [List.foldr_cons] at he
    by_cases hk : pyUpper (pyStrip cv.1) ≠ ""
    · rw [if_pos hk] at he
      rcases List.mem_cons.mp he with h1 | h2
      · exact ⟨cv, List.mem_cons_self cv rest, h1, hk⟩
      · obtain ⟨cv2, hmem, heq, hne⟩ := ih h2
        exact ⟨cv2, List.mem_cons_of_mem cv hmem, heq, hne⟩
    · rw [if_neg hk] at he
      obtain ⟨cv2, hmem, heq, hne⟩ := ih he
      exact ⟨cv2, List.mem_cons_of_mem cv hmem, heq, hne⟩

theorem append_underscore_ne (k name : String) : k ++ "_" ++ name ≠ name := by
  intro h
  have hl := congrArg String.length h
  rw [String.length_append, String.length_append] at hl
  have : String.length "_" = 1 := rfl
  omega

/-- C7: for a panel-level attribute, when a channel label column is
present and splits into as many line-break-delimited elements as the
value, the row receives only re-keyed entries `{CHANNEL}_{Attribute}`
(channel stripped and upper-cased, values stripped, empty channel labels
dropped) and no entry under the original attribute name; on a count
mismatch it receives exactly the raw unsplit value under the original
name; and for no input does it receive both an original-name entry and a
re-keyed entry. -/
theorem C7_panel_fanout (rawRow : RowData) (columnName : String) (ch v : String)
    (hch : (dictGet rawRow "Panel_Channel").join = some ch)
    (hv : (dictGet rawRow columnName).join = some v) :
    ((pySplit ch '\n').length = (pySplit v '\n').length →
      ((∀ e ∈ processPanelAttr rawRow columnName,
          ∃ cv ∈ (pySplit ch '\n').zip (pySplit v '\n'),
            e = (pyUpper (pyStrip cv.1) ++ "_" ++ columnName, pyStrip cv.2) ∧
            pyUpper (pyStrip cv.1) ≠ "") ∧
        ∀ val, (columnName, val) ∉ processPanelAttr rawRow columnName)) ∧
    ((pySplit ch '\n').length ≠ (pySplit v '\n').length →
      processPanelAttr rawRow columnName = [(columnName, v)]) ∧
    ¬ ((∃ val, (columnName, val) ∈ processPanelAttr rawRow columnName) ∧
       (∃ k val2, (k ++ "_" ++ columnName, val2) ∈
          processPanelAttr rawRow columnName ∧ k ≠ "")) := by
  have hidx : dictGet COLUMN_MAPPING "Panel_Channel" = some 3 := by decide
  have hdef : processPanelAttr rawRow columnName =
      (if (pySplit ch '\n').length = (pySplit v '\n').length then
        ((pySplit ch '\n').zip (pySplit v '\n')).foldr
          (fun cv acc =>
            let channelKey := pyUpper (pyStrip cv.1)
            if channelKey ≠ "" then
              (channelKey ++ "_" ++ columnName, pyStrip cv.2) :: acc
            else acc) []
      else [(columnName, v)]) := by
    simp only [processPanelAttr, hidx, hch, hv]
  by_cases hlen : (pySplit ch '\n').length = (pySplit v '\n').length
  · rw [hdef, if_pos hlen]
    have hmem := fun e he =>
      mem_fanoutFold ((pySplit ch '\n').zip (pySplit v '\n')) columnName e he
    refine ⟨fun _ => ⟨hmem, ?_⟩, fun hne => absurd hlen hne, ?_⟩
    · intro val hval
      obtain ⟨cv, _, heq, _⟩ := hmem _ hval
      have : columnName = pyUpper (pyStrip cv.1) ++ "_" ++ columnName :=
        congrArg Prod.fst heq
      exact append_underscore_ne _ _ this.symm
    · rintro ⟨⟨val, hval⟩, -⟩
      obtain ⟨cv, _, heq, _⟩ := hmem _ hval
      have : columnName = pyUpper (pyStrip cv.1) ++ "_" ++ columnName :=
        congrArg Prod.fst heq
      exact append_underscore_ne _ _ this.symm
  · rw [hdef, if_neg hlen]
    refine ⟨fun h => absurd h hlen, fun _ => rfl, ?_⟩
    rintro ⟨-, ⟨k, val2, hk, hkne⟩⟩
    rcases List.mem_singleton.mp hk with heq
    have : k ++ "_" ++ columnName = columnName := congrArg Prod.fst heq
    exact append_underscore_ne _ _ this

/-- Witness for `C7_panel_fanout` on a two-channel row. -/
theorem C7_panel_fanout_witness :
    (((pySplit "ch1\nch2" '\n').length = (pySplit "12.1\n13.5" '\n').length →
      ((∀ e ∈ processPanelAttr
            [("Panel_Channel", some "ch1\nch2"), ("Panel_Voltage", some "12.1\n13.5")]
            "Panel_Voltage",
          ∃ cv ∈ (pySplit "ch1\nch2" '\n').zip (pySplit "12.1\n13.5" '\n'),
            e = (pyUpper (pyStrip cv.1) ++ "_" ++ "Panel_Voltage", pyStrip cv.2) ∧
            pyUpper (pyStrip cv.1) ≠ "") ∧
        ∀ val, ("Panel_Voltage", val) ∉ processPanelAttr
            [("Panel_Channel", some "ch1\nch2"), ("Panel_Voltage", some "12.1\n13.5")]
            "Panel_Voltage")) ∧
    ((pySplit "ch1\nch2" '\n').length ≠ (pySplit "12.1\n13.5" '\n').length →
      processPanelAttr
          [("Panel_Channel", some "ch1\nch2"), ("Panel_Voltage", some "12.1\n13.5")]
          "Panel_Voltage" = [("Panel_Voltage", "12.1\n13.5")]) ∧
    ¬ ((∃ val, ("Panel_Voltage", val) ∈ processPanelAttr
          [("Panel_Channel", some "ch1\nch2"), ("Panel_Voltage", some "12.1\n13.5")]
          "Panel_Voltage") ∧
       (∃ k val2, (k ++ "_" ++ "Panel_Voltage", val2) ∈ processPanelAttr
          [("Panel_Channel", some "ch1\nch2"), ("Panel_Voltage", some "12.1\n13.5")]
          "Panel_Voltage" ∧ k ≠ ""))) :=
  C7_panel_fanout
    [("Panel_Channel", some "ch1\nch2"), ("Panel_Voltage", some "12.1\n13.5")]
    "Panel_Voltage" "ch1\nch2" "12.1\n13.5" (by decide) (by decide)

theorem digitVal_digitChar : ∀ a, a < 10 → digitVal (Nat.digitChar a) = some a := by
  decide

theorem twoDigits_digitChar (a b : Nat) (ha : a < 10) (hb : b < 10) :
    twoDigits (Nat.digitChar a) (Nat.digitChar b) = some (a * 10 + b) := by
  simp [twoDigits, digitVal_digitChar a ha, digitVal_digitChar b hb]

theorem daysInMonth_le (y m : Nat) : daysInMonth y m ≤ 31 := by
  simp only [daysInMonth]
  split_ifs <;> norm_num

theorem fromisoformat_isoformat (d : Date) (h : ValidDate d) :
    fromisoformat (isoformat d) = some d := by
  obtain ⟨h1, h2, h3, h4, h5, h6⟩ := h
  obtain ⟨y, m, dd⟩ := d
  simp only at h1 h2 h3 h4 h5 h6
  have hb : ∀ k : Nat, k % 10 < 10 := fun k => Nat.mod_lt _ (by norm_num)
  simp only [isoformat, pad4, pad2, List.cons_append, List.nil_append,
    fromisoformat]
  rw [twoDigits_digitChar _ _ (hb _) (hb _), twoDigits_digitChar _ _ (hb _) (hb _),
    twoDigits_digitChar _ _ (hb _) (hb _), twoDigits_digitChar _ _ (hb _) (hb _)]
  simp only [eq_self_iff_true, and_self, if_true]
  have hy : (y / 1000 % 10 * 10 + y / 100 % 10) * 100 +
      (y / 10 % 10 * 10 + y % 10) = y := by omega
  have hm2 : m / 10 % 10 * 10 + m % 10 = m := by omega
  have hd2 : dd / 10 % 10 * 10 + dd % 10 = dd := by
    have := le_trans h6 (daysInMonth_le y m)
    omega
  rw [hy, hm2, hd2]
  split_ifs with hcond
  · rfl
  · exact absurd ⟨h1, h3, h4, h5, h6⟩ hcond

theorem isoformat_ne_empty (d : Date) : isoformat d ≠ "" := by
  intro hq
  have := congrArg String.data hq
  simp [isoformat, pad4, pad2] at this

/-- C8: `save` then `load` round-trips any valid peak-power state: the
peak value and the reset date are both preserved, with an absent reset
date stored as `null` and loaded back as absent. -/
theorem C8_save_load_roundtrip (p : Rat) (d : Option Date)
    (h : ∀ x, d = some x → ValidDate x) :
    load_peak_power_state (save_peak_power_state p d) = (p, d) := by
  cases d with
  | none => rfl
  | some x =>
    have hv := h x rfl
    simp only [save_peak_power_state, Option.map_some', load_peak_power_state,
      if_neg (isoformat_ne_empty x), fromisoformat_isoformat x hv,
      Option.getD_some]

/-- Witness for `C8_save_load_roundtrip` on a leap-day state. -/
theorem C8_save_load_roundtrip_witness :
    load_peak_power_state (save_peak_power_state (7/2) (some ⟨2024, 2, 29⟩))
      = (7/2, some ⟨2024, 2, 29⟩) :=
  C8_save_load_roundtrip (7/2) (some ⟨2024, 2, 29⟩)
    (by intro x hx; cases hx; constructor <;> decide)

/-- C9: loading never fails startup: an absent file, malformed stored
content, and a record whose stored date string does not parse all return
the initial state `(0.0, absent)` (the embedding is a total function, so
no input raises). -/
theorem C9_load_graceful (p : Option Rat) (s : String)
    (hbad : fromisoformat s = none) (hne : s ≠ "") :
    load_peak_power_state .absent = (0, none) ∧
    load_peak_power_state .malformed = (0, none) ∧
    load_peak_power_state (.record p (some s)) = (0, none) := by
  refine ⟨rfl, rfl, ?_⟩
  simp only [load_peak_power_state, if_neg hne, hbad]

/-- Witness for `C9_load_graceful` with an unparsable stored date. -/
theorem C9_load_graceful_witness :
    load_peak_power_state .absent = (0, none) ∧
    load_peak_power_state .malformed = (0, none) ∧
    load_peak_power_state (.record (some 3) (some "notadate")) = (0, none) :=
  C9_load_graceful (some 3) "notadate" (by decide)
    (by decide)

/-- C5: `aggregate_plant_data` sums the `Power` attribute across all
device snapshots, tolerating a comma as decimal separator — snapshots with
`Power = "1200,5"` and `Power = "300.0"` yield plant `Power = 1500.5` —
and in general the plant `Power` equals the rounded sum of exactly the
parseable `Power` values, so an unparsable value is skipped and never
aborts the aggregation. -/
theorem C5_aggregate_power :
    Option.map PlantData.Power (aggregate_plant_data
        [("sn1", [("Power", some "1200,5")]), ("sn2", [("Power", some "300.0")])])
      = some (3001/2) ∧
    ∀ data, data ≠ [] →
      Option.map PlantData.Power (aggregate_plant_data data)
        = some (pyRound2 (specPowerSum data)) := by
  have hgen : ∀ data, data ≠ [] →
      Option.map PlantData.Power (aggregate_plant_data data)
        = some (pyRound2 (specPowerSum data)) := by
    intro data h
    rw [aggregate_plant_data, if_neg h]
    simp only [Option.map_some]
    have hsum := aggFold_sumPower data initAggAcc
    rw [show initAggAcc.sumPower = 0 from rfl, zero_add] at hsum
    simp [hsum]
  refine ⟨?_, hgen⟩
  rw [hgen _ (by simp)]
  have hsum : specPowerSum
      [("sn1", [("Power", some "1200,5")]), ("sn2", [("Power", some "300.0")])]
      = 3001/2 := by
    simp +decide [specPowerSum, powerContrib, pyFloat, replaceChar,
      splitOnChar, digitsToNatAux, digitVal]
    norm_num
  rw [hsum]
  norm_num [pyRound2, roundHalfEven, Int.floor_eq_iff]

/-- Witness for the general clause of `C5_aggregate_power`: a device whose
`Power` value is unparsable contributes nothing, and aggregation still
returns a summary. -/
theorem C5_aggregate_power_witness :
    Option.map PlantData.Power (aggregate_plant_data
        [("sn1", [("Power", some "garbled")])])
      = some (pyRound2 (specPowerSum [("sn1", [("Power", some "garbled")])])) :=
  C5_aggregate_power.2 _ (by simp)

/-- Witness for `C10_same_day_peak` at a concrete input. -/
theorem C10_same_day_peak_witness :
    (5:Rat) ≤ (calculate_peak_power ⟨2026, 10, 12⟩ (some 7) 5
        (some ⟨2026, 10, 12⟩)).1 ∧
    (calculate_peak_power ⟨2026, 10, 12⟩ (some 7) 5
        (some ⟨2026, 10, 12⟩)).2.1 = some ⟨2026, 10, 12⟩ ∧
    ((calculate_peak_power ⟨2026, 10, 12⟩ (some 7) 5
        (some ⟨2026, 10, 12⟩)).2.2 = true ↔
      ∃ c, (some (7:Rat)) = some c ∧ (5:Rat) < c) :=
  C10_same_day_peak ⟨2026, 10, 12⟩ (some 7) 5
    (by norm_num [pyRound2, roundHalfEven, Int.floor_eq_iff])

/-- C1: the claimed per-device recovery never happens.  The recovery
branch (quit driver, sleep, re-login, one local retry) is guarded by the
constant-false test `max_attempts < 2` with `max_attempts = 2`
(web_scraper.py line 349), so no outcome sequence ever triggers a
re-login, and at the failing input — a first-attempt connection-class
error with a second attempt that would succeed — the device is skipped
with no retry instead of recovering once and succeeding as the claim
requires. -/
theorem C1_recovery_branch_dead :
    (∀ outcomes : Nat → FetchOutcome, (fetch_device outcomes).relogins = 0) ∧
    fetch_device (fun n => if n = 1 then .connClassError
        else .rowSuccess [("Update_time", some "2026-10-12T10:00:00Z")])
      = ⟨none, 0⟩ := by
  constructor
  · intro outcomes
    rw [fetch_device, fetchAttemptLoop]
    rw [if_pos (by norm_num)]
    cases h : outcomes 1 <;> simp [h]
  · decide

/-- C4: two consecutive polls of a device with an identical `Update_time`
leave the scheduler state (including `last_data_change_instant`)
unchanged; once the elapsed time since that instant exceeds the
threshold, the interval decision switches `using_extended_interval` on; a
poll with a changed valid `Update_time` immediately clears the flag and
resets the instant; and the interval-decision step itself never clears
the flag. -/
theorem C4_scheduler_dynamics :
    (∀ (s : SchedulerState) (sn : String) (row : RowData) (now : Nat)
        (u : String),
      (dictGet row "Update_time").join = some u →
      dictGet s.lastKnownUpdateTimes sn = some u →
      detectDataChanges s [(sn, row)] now = s) ∧
    (∀ (s : SchedulerState) (now threshold t : Nat),
      s.usingExtendedInterval = false →
      s.lastDataChangeTimestamp = some t →
      now - t > threshold →
      (decideInterval s now threshold).usingExtendedInterval = true) ∧
    (∀ (s : SchedulerState) (sn : String) (row : RowData) (now : Nat)
        (u2 : String),
      (dictGet row "Update_time").join = some u2 →
      u2 ≠ "" →
      containsChar u2 'Z' = true →
      dictGet s.lastKnownUpdateTimes sn ≠ some u2 →
      (detectDataChanges s [(sn, row)] now).usingExtendedInterval = false ∧
      (detectDataChanges s [(sn, row)] now).lastDataChangeTimestamp
        = some now) ∧
    (∀ (s : SchedulerState) (now threshold : Nat),
      (decideInterval s now threshold).usingExtendedInterval = false →
      s.usingExtendedInterval = false) := by
  refine ⟨?_, ?_, ?_, ?_⟩
  · intro s sn row now u hu hlast
    obtain ⟨lk, ts, ext⟩ := s
    simp only at hlast
    simp only [detectDataChanges, List.foldl_cons, List.foldl_nil, hu, hlast]
    by_cases h0 : u = ""
    · simp [h0]
    · by_cases hz : containsChar u 'Z'
      · simp [h0, hz]
      · simp [h0, hz]
  · intro s now th t hext hts hgt
    obtain ⟨lk, ts, ext⟩ := s
    simp only at hext hts
    subst hext
    subst hts
    simp [decideInterval, hgt]
  · intro s sn row now u2 hu hne hz hlast
    obtain ⟨lk, ts, ext⟩ := s
    simp only at hlast
    simp only [detectDataChanges, List.foldl_cons, List.foldl_nil, hu,
      if_neg hne, hz, eq_self_iff_true, if_true, if_pos hlast]
    simp
  · intro s now th h
    by_cases hx : s.usingExtendedInterval = false
    · exact hx
    · exfalso
      have hx2 : s.usingExtendedInterval = true := by
        cases hb : s.usingExtendedInterval
        · exact absurd hb hx
        · rfl
      rw [decideInterval, if_neg (by simp [hx2])] at h
      exact absurd h (by simp [hx2])

/-- Witness for `C4_scheduler_dynamics` at concrete states: an unchanged
poll keeps the state; a 1900 s lull beyond an 1800 s threshold switches
the flag; a changed poll clears it and stamps the instant; a state left
normal by the decision step was already normal. -/
theorem C4_scheduler_dynamics_witness :
    detectDataChanges ⟨[("sn1", "2026-10-12T10:00:00Z")], some 100, false⟩
        [("sn1", [("Update_time", some "2026-10-12T10:00:00Z")])] 500
      = ⟨[("sn1", "2026-10-12T10:00:00Z")], some 100, false⟩ ∧
    (decideInterval ⟨[("sn1", "2026-10-12T10:00:00Z")], some 100, false⟩
        2000 1800).usingExtendedInterval = true ∧
    ((detectDataChanges ⟨[("sn1", "2026-10-12T10:00:00Z")], some 100, true⟩
        [("sn1", [("Update_time", some "2026-10-12T10:05:00Z")])] 3000).usingExtendedInterval
        = false ∧
      (detectDataChanges ⟨[("sn1", "2026-10-12T10:00:00Z")], some 100, true⟩
        [("sn1", [("Update_time", some "2026-10-12T10:05:00Z")])] 3000).lastDataChangeTimestamp
        = some 3000) ∧
    (⟨[], none, false⟩ : SchedulerState).usingExtendedInterval = false :=
  ⟨C4_scheduler_dynamics.1 _ "sn1" _ 500 "2026-10-12T10:00:00Z"
      (by decide) (by decide),
   C4_scheduler_dynamics.2.1 _ 2000 1800 100 rfl rfl (by norm_num),
   C4_scheduler_dynamics.2.2.1 _ "sn1" _ 3000 "2026-10-12T10:05:00Z"
      (by decide) (by decide) (by decide) (by decide),
   C4_scheduler_dynamics.2.2.2 ⟨[], none, false⟩ 7 3 (by decide)⟩

end SajScraper
